import Mathlib

/-!
Verification of the VAST ad-chain resolver and ad-markup parser of
`creative_previewer_app_webview.py` (class methods `parse_ad_response`,
`decode_html_entities`, `extract_vast_url`, `_process_vast_chain`,
`extract_vast_click_through`, `_extract_click_through_from_vast_chain`,
`_extract_companion_ad_info`).

The embedding models parsed XML documents as rose trees (`XNode`), mirroring
Python `xml.etree.ElementTree` elements: a tag (with `none` standing for
`ET.Comment` nodes), an attribute list, the element's `.text`, and its child
list.  `find('.//X')` / `findall('.//X')` search the strict descendants of a
node in document (preorder) order, exactly as ElementTree does for these
path expressions.  Network I/O (`requests.get` followed by `ET.fromstring`
of the body) is modelled by an explicit environment `Net`; string-level XML
parsing of locally supplied markup (`ET.fromstring`) is an oracle parameter
of type `String → Option XNode`, `none` standing for `ET.ParseError`.
Python exceptions raised by the resolver are modelled as `Except.error`
carrying the exception message.
-/

/-- A parsed XML node in the ElementTree style: `tag = none` models an
`ET.Comment` node, `text` is the element's `.text` attribute. -/
inductive XNode where
  | mk (tag : Option String) (attrs : List (String × String))
       (text : Option String) (children : List XNode)

def XNode.tag : XNode → Option String
  | .mk t _ _ _ => t

def XNode.attrs : XNode → List (String × String)
  | .mk _ a _ _ => a

def XNode.text : XNode → Option String
  | .mk _ _ t _ => t

def XNode.children : XNode → List XNode
  | .mk _ _ _ c => c

mutual

/-- All strict descendants of a node, in document (preorder) order:
the node set searched by ElementTree `find('.//X')` / `findall('.//X')`. -/
def XNode.descendants : XNode → List XNode
  | .mk _ _ _ cs => descendantsList cs

def descendantsList : List XNode → List XNode
  | [] => []
  | c :: cs => c :: c.descendants ++ descendantsList cs

end

/-- Models `elem.findall('.//t')`: every strict descendant whose tag is `t`,
in document order (comments never match a name). -/
def findAll (e : XNode) (t : String) : List XNode :=
  e.descendants.filter (fun d => d.tag = some t)

/-- Models `elem.find('.//t')`: the first strict descendant whose tag is `t`. -/
def findE (e : XNode) (t : String) : Option XNode :=
  (findAll e t).head?

/-- Models `elem.get(k)`: attribute lookup with no default (`None` when absent). -/
def attrGet (e : XNode) (k : String) : Option String :=
  (e.attrs.find? (fun p => p.1 = k)).map (fun p => p.2)

/-- Models `elem.get(k, d)`: attribute lookup with default `d`. -/
def attrD (e : XNode) (k : String) (d : String) : String :=
  (attrGet e k).getD d

/-- Python `str.strip()`: drop leading and trailing whitespace. -/
def pyStrip (s : String) : String :=
  ⟨((s.data.dropWhile Char.isWhitespace).reverse.dropWhile Char.isWhitespace).reverse⟩

/-- Python `int(s)` on decimal string literals: optional surrounding
whitespace, an optional sign, then a nonempty digit run; `none` models the
`ValueError` raised on any other input.  (Underscore digit separators,
accepted by CPython, are not modelled; no input in this development uses
them.) -/
def pyInt (s : String) : Option Int :=
  let go : List Char → Option Int := fun ds =>
    if ds ≠ [] ∧ ds.all Char.isDigit then
      some (Int.ofNat (ds.foldl (fun n c => 10 * n + (c.toNat - 48)) 0))
    else none
  match (pyStrip s).data with
  | '+' :: ds => go ds
  | '-' :: ds => (go ds).map (fun n => -n)
  | ds => go ds


/-- Decimal character-reference tail (after `&#`): digits then `;`.
Returns the decoded character and chars consumed so far including the
closing `;` (the accumulator `k` carries what the caller already consumed). -/
def decRefGo : List Char → Nat → Nat → Bool → Option (Char × Nat)
  | [], _, _, _ => none
  | c :: rest, acc, k, seen =>
    if c = ';' then (if seen then some (Char.ofNat acc, k + 1) else none)
    else if c.isDigit then decRefGo rest (10 * acc + (c.toNat - 48)) (k + 1) true
    else none

/-- Hexadecimal character-reference tail (after `&#x` / `&#X`). -/
def hexRefGo : List Char → Nat → Nat → Bool → Option (Char × Nat)
  | [], _, _, _ => none
  | c :: rest, acc, k, seen =>
    if c = ';' then (if seen then some (Char.ofNat acc, k + 1) else none)
    else if c.isDigit then hexRefGo rest (16 * acc + (c.toNat - 48)) (k + 1) true
    else if 'a' ≤ c ∧ c ≤ 'f' then hexRefGo rest (16 * acc + (c.toNat - 87)) (k + 1) true
    else if 'A' ≤ c ∧ c ≤ 'F' then hexRefGo rest (16 * acc + (c.toNat - 55)) (k + 1) true
    else none

/-- One character reference at the point just after a `&`: the decoded
character and the number of source characters consumed.  Handles the
semicolon-terminated named references relevant to this code base
(`amp` `lt` `gt` `quot` `apos` `nbsp`) and decimal / hexadecimal numeric
references. -/
def matchEntity (cs : List Char) : Option (Char × Nat) :=
  if ("amp;".data).isPrefixOf cs then some ('&', 4)
  else if ("lt;".data).isPrefixOf cs then some ('<', 3)
  else if ("gt;".data).isPrefixOf cs then some ('>', 3)
  else if ("quot;".data).isPrefixOf cs then some ('"', 5)
  else if ("apos;".data).isPrefixOf cs then some (Char.ofNat 39, 5)
  else if ("nbsp;".data).isPrefixOf cs then some (Char.ofNat 160, 5)
  else
    match cs with
    | '#' :: 'x' :: ds => hexRefGo ds 0 2 false
    | '#' :: 'X' :: ds => hexRefGo ds 0 2 false
    | '#' :: ds => decRefGo ds 0 1 false
    | _ => none

/-- The scanner underlying `html.unescape`: a recognised character reference
is replaced and scanning resumes after it (the replacement is never
rescanned, matching `re.sub`); anything else is copied verbatim.  The fuel
argument is a structural termination measure only: every step consumes at
least one character, so fuel equal to the input length (as supplied by
`html_unescape`) is never exhausted. -/
def unescapeAux : Nat → List Char → List Char
  | 0, s => s
  | _, [] => []
  | fuel + 1, '&' :: rest =>
    (match matchEntity rest with
     | some (c, k) => c :: unescapeAux fuel (rest.drop k)
     | none => '&' :: unescapeAux fuel rest)
  | fuel + 1, c :: rest => c :: unescapeAux fuel rest

/-- Models Python `html.unescape`, restricted to the character references
handled by `matchEntity`; all other text passes through unchanged. -/
def html_unescape (s : String) : String :=
  ⟨unescapeAux s.data.length s.data⟩

/-- Python `str.replace(pat, rep)` for a nonempty pattern: replace every
non-overlapping occurrence, scanning left to right, without rescanning
replacements.  Structural-fuel variant of the stdlib routine so that it
evaluates inside the kernel; fuel equal to the input length is never
exhausted. -/
def replaceAllAux (pat rep : List Char) : Nat → List Char → List Char
  | 0, s => s
  | _, [] => []
  | fuel + 1, c :: rest =>
    if pat.isPrefixOf (c :: rest) then
      rep ++ replaceAllAux pat rep fuel ((c :: rest).drop pat.length)
    else c :: replaceAllAux pat rep fuel rest

def pyReplace (s pat rep : String) : String :=
  ⟨replaceAllAux pat.data rep.data s.data.length s.data⟩

/-- The fixed replacement table of `decode_html_entities`
(`creative_previewer_app_webview.py:1540`), in source order. -/
def entityReplacements : List (String × String) :=
  [("&nbsp;", " "), ("&#39;", "\x27"), ("&#34;", "\""), ("&#60;", "<"),
   ("&#62;", ">"), ("&#38;", "&"), ("&#160;", " ")]

/-- Models `decode_html_entities(text)` (line 1531): empty input is returned as is;
otherwise a generic `html.unescape` pass, then each table replacement
applied in order with `str.replace` over the whole intermediate string. -/
def decode_html_entities (text : String) : String :=
  if text = "" then text
  else entityReplacements.foldl (fun d p => pyReplace d p.1 p.2) (html_unescape text)


/-- Outcome of `requests.get(url, timeout=10)` followed by `ET.fromstring`
on the body, as observed by the chain walkers: a non-200 status, a raised
`requests` exception (timeout / connection error), a body that is not
well-formed XML (`ET.ParseError`), or a parsed document root. -/
inductive Fetched where
  | httpFail (status : Nat)
  | exn (msg : String)
  | badXml (msg : String)
  | xml (root : XNode)

/-- The HTTP environment the resolver runs against. -/
def Net : Type := String → Fetched

/-- One collected MediaFile candidate `{url, type, bitrate}`
(`creative_previewer_app_webview.py:1678`). -/
structure MediaFile where
  url : String
  type : String
  bitrate : Int
deriving DecidableEq

/-- Models `int(media_file.get('bitrate', '0') or '0')` (line 1677 / 1600): the
attribute defaults to `"0"` when missing, the `or '0'` turns an empty
attribute into `"0"`, and `int` raises `ValueError` (modelled as
`Except.error` with the literal in the message) on anything that is not a
decimal integer literal. -/
def parseBitrate (e : XNode) : Except String Int :=
  let b0 := attrD e "bitrate" "0"
  let b := if b0 = "" then "0" else b0
  match pyInt b with
  | some n => .ok n
  | none => .error ("invalid literal for int() with base 10: " ++ b)

/-- Models `s.endswith(suffix)` over character lists (kernel-evaluable). -/
def strEndsWith (s suf : String) : Bool :=
  suf.data.reverse.isPrefixOf s.data.reverse

/-- Python `sub in s` substring membership. -/
def subListAt (pat : List Char) : List Char → Bool
  | [] => pat.isPrefixOf []
  | c :: t => pat.isPrefixOf (c :: t) || subListAt pat t

/-- The MediaFile collection loop (lines 1670-1682 and 1594-1605): for each
`MediaFile` element, `url` is the stripped element text (empty for no
text), `type` the `type` attribute (default empty); the candidate is kept
when `type == "video/mp4"` or the url ends in `.mp4`, in which case its
bitrate is parsed (possibly raising). -/
def collectMediaFiles : List XNode → Except String (List MediaFile)
  | [] => .ok []
  | e :: es =>
    let url := match e.text with
      | some t => if t = "" then "" else pyStrip t
      | none => ""
    let ty := attrD e "type" ""
    if ty = "video/mp4" ∨ strEndsWith url ".mp4" then
      match parseBitrate e with
      | .error m => .error m
      | .ok b => (collectMediaFiles es).map (fun ms => ⟨url, ty, b⟩ :: ms)
    else collectMediaFiles es

/-- Stable descending insertion: a later candidate is placed after all
candidates with bitrate greater than or equal to its own. -/
def insertDesc (m : MediaFile) : List MediaFile → List MediaFile
  | [] => [m]
  | x :: xs => if x.bitrate < m.bitrate then m :: x :: xs else x :: insertDesc m xs

/-- Models `media_files.sort(key=lambda x: x['bitrate'], reverse=True)` (lines 1688
and 1609): CPython's sort is stable, so its output is the unique
descending-by-bitrate reordering that keeps equal-bitrate candidates in
original order; stable insertion sort below produces exactly that list. -/
def sortMediaFiles (ms : List MediaFile) : List MediaFile :=
  ms.foldl (fun acc m => insertDesc m acc) []

/-- The InLine branch of `_process_vast_chain` (lines 1662-1692): require a
`Linear` creative, collect MP4 candidates, fail when none qualifies, else
return the url of the highest-bitrate candidate.  (The source checks
emptiness before sorting; sorting preserves emptiness, so the check is
folded into the match on the sorted list.) -/
def inlineMedia (inline_ad : XNode) : Except String String :=
  match findE inline_ad "Linear" with
  | none => .error "InLine VAST does not contain a Linear creative"
  | some linear =>
    match collectMediaFiles (findAll linear "MediaFile") with
    | .error m => .error m
    | .ok ms =>
      match sortMediaFiles ms with
      | [] => .error "No MP4 MediaFile found in InLine VAST"
      | primary_video :: _ => .ok primary_video.url

/-- The Wrapper branch guard (lines 1699-1703): a missing `VASTAdTagURI`
element or a falsy (`None` or empty) text is fatal; otherwise the stripped
text is the next hop URI. -/
def wrapperNextUri (wrapper_ad : XNode) : Except String String :=
  match findE wrapper_ad "VASTAdTagURI" with
  | none => .error "Wrapper VAST does not contain a VASTAdTagURI"
  | some uriElem =>
    match uriElem.text with
    | none => .error "Wrapper VAST does not contain a VASTAdTagURI"
    | some t =>
      if t = "" then .error "Wrapper VAST does not contain a VASTAdTagURI"
      else .ok (pyStrip t)

/-- Models `_process_vast_chain(vast_url, wrapper_count)` (line 1636), returning
the Python result (or raised exception message) together with the list of
URLs fetched, in order.  The `fuel` argument of the auxiliary function is
only a structural termination measure: the entry point supplies
`7 - wrapper_count`, and since the `wrapper_count > 5` guard fires first,
the fuel never reaches 0 on any reachable path (every recursive call keeps
`fuel = 7 - wrapper_count ≥ 1`). -/
def processVastChainAux (net : Net) : Nat → String → Nat → Except String String × List String
  | 0, _, _ => (.error "Exceeded maximum VAST wrapper redirects", [])
  | fuel + 1, vast_url, wrapper_count =>
    if wrapper_count > 5 then (.error "Exceeded maximum VAST wrapper redirects", [])
    else
      match net vast_url with
      | .httpFail status => (.error ("Failed to fetch VAST XML: " ++ toString status), [vast_url])
      | .exn m => (.error m, [vast_url])
      | .badXml m => (.error ("Invalid XML: " ++ m), [vast_url])
      | .xml root =>
        match findE root "InLine" with
        | some inline_ad => (inlineMedia inline_ad, [vast_url])
        | none =>
          match findE root "Wrapper" with
          | some wrapper_ad =>
            (match wrapperNextUri wrapper_ad with
             | .error m => (.error m, [vast_url])
             | .ok next_vast_url =>
               let r := processVastChainAux net fuel next_vast_url (wrapper_count + 1)
               (r.1, vast_url :: r.2))
          | none => (.error "VAST XML contains neither InLine nor Wrapper Ad element", [vast_url])

def processVastChain (net : Net) (vast_url : String) (wrapper_count : Nat) :
    Except String String × List String :=
  processVastChainAux net (7 - wrapper_count) vast_url wrapper_count

/-- The InLine branch of `_extract_click_through_from_vast_chain`
(lines 1777-1794): require `Linear`; then `VideoClicks`/`ClickThrough` with
truthy text yields the stripped url, every other shape yields `None`. -/
def inlineClick (inline_ad : XNode) : Except String (Option String) :=
  match findE inline_ad "Linear" with
  | none => .error "InLine VAST does not contain a Linear creative"
  | some linear =>
    match findE linear "VideoClicks" with
    | none => .ok none
    | some video_clicks =>
      match findE video_clicks "ClickThrough" with
      | none => .ok none
      | some click_through =>
        match click_through.text with
        | none => .ok none
        | some t => if t = "" then .ok none else .ok (some (pyStrip t))

/-- Models `_extract_click_through_from_vast_chain(vast_url, wrapper_count)`
(line 1754); same chain walk as `processVastChainAux`, with the InLine
branch extracting the click-through instead of the media url. -/
def clickChainAux (net : Net) : Nat → String → Nat → Except String (Option String) × List String
  | 0, _, _ => (.error "Exceeded maximum VAST wrapper redirects", [])
  | fuel + 1, vast_url, wrapper_count =>
    if wrapper_count > 5 then (.error "Exceeded maximum VAST wrapper redirects", [])
    else
      match net vast_url with
      | .httpFail status => (.error ("Failed to fetch VAST XML: " ++ toString status), [vast_url])
      | .exn m => (.error m, [vast_url])
      | .badXml m => (.error ("Invalid XML: " ++ m), [vast_url])
      | .xml root =>
        match findE root "InLine" with
        | some inline_ad => (inlineClick inline_ad, [vast_url])
        | none =>
          match findE root "Wrapper" with
          | some wrapper_ad =>
            (match wrapperNextUri wrapper_ad with
             | .error m => (.error m, [vast_url])
             | .ok next_vast_url =>
               let r := clickChainAux net fuel next_vast_url (wrapper_count + 1)
               (r.1, vast_url :: r.2))
          | none => (.error "VAST XML contains neither InLine nor Wrapper Ad element", [vast_url])

def clickChain (net : Net) (vast_url : String) (wrapper_count : Nat) :
    Except String (Option String) × List String :=
  clickChainAux net (7 - wrapper_count) vast_url wrapper_count

/-- Case-insensitive (ASCII) literal prefix test, as under `re.IGNORECASE`. -/
def startsWithCI : List Char → List Char → Bool
  | [], _ => true
  | _ :: _, [] => false
  | p :: ps, c :: cs => p.toLower = c.toLower && startsWithCI ps cs

/-- Lazy `(.*?)` capture up to a case-insensitive literal `cls`: the capture
is the shortest char run (never containing a newline, since `.` does not
match `\n` without `re.DOTALL`) after which `cls` matches; returns the
capture and the remainder after `cls`. -/
def captureUntilCI (cls : List Char) : List Char → Option (List Char × List Char)
  | [] => if startsWithCI cls [] then some ([], []) else none
  | c :: rest =>
    if startsWithCI cls (c :: rest) then some ([], (c :: rest).drop cls.length)
    else if c = '\n' then none
    else (captureUntilCI cls rest).map (fun p => (c :: p.1, p.2))

/-- Case-sensitive variant (for `re.sub` calls that pass no flags). -/
def captureUntilCS (cls : List Char) : List Char → Option (List Char × List Char)
  | [] => if cls.isPrefixOf [] then some ([], []) else none
  | c :: rest =>
    if cls.isPrefixOf (c :: rest) then some ([], (c :: rest).drop cls.length)
    else if c = '\n' then none
    else (captureUntilCS cls rest).map (fun p => (c :: p.1, p.2))

/-- Literal opening-part matcher: on success returns the text after it. -/
def matchLit (pat : List Char) (s : List Char) : Option (List Char) :=
  if startsWithCI pat s then some (s.drop pat.length) else none

/-- Opening-part matcher for `tag[^>]*>post`: the character class cannot
match `>`, so the greedy `[^>]*>` deterministically consumes up to and
including the first `>`. -/
def matchOpenAttr (tag post : List Char) (s : List Char) : Option (List Char) :=
  if startsWithCI tag s then
    match (s.drop tag.length).dropWhile (fun c => c ≠ '>') with
    | '>' :: s3 => if startsWithCI post s3 then some (s3.drop post.length) else none
    | _ => none
  else none

/-- Models `re.search` for a pattern of shape `open(.*?)close` (IGNORECASE, no
DOTALL): try each start position left to right; where the opening part
matches, lazily capture up to the first `close`; on capture failure (end of
input or newline) resume from the next start position, as the backtracking
engine does.  Returns the first (leftmost) capture. -/
def searchLazyCI (opn : List Char → Option (List Char)) (cls : List Char) :
    List Char → Option (List Char)
  | [] => none
  | c :: rest =>
    match opn (c :: rest) with
    | some r =>
      (match captureUntilCI cls r with
       | some p => some p.1
       | none => searchLazyCI opn cls rest)
    | none => searchLazyCI opn cls rest

/-- The `VASTAdTagURI` scan shared by `extract_vast_url` (line 1562) and
`extract_vast_click_through` (line 1719): the `re.search` loop tries the
CDATA form first, then the plain form; the first pattern with a match
anywhere in the markup wins. -/
def vastTagSearch (markup : String) : Option String :=
  match searchLazyCI (matchLit "<VASTAdTagURI><![CDATA[".data) "]]></VASTAdTagURI>".data markup.data with
  | some cap => some ⟨cap⟩
  | none =>
    match searchLazyCI (matchLit "<VASTAdTagURI>".data) "</VASTAdTagURI>".data markup.data with
    | some cap => some ⟨cap⟩
    | none => none

/-- Models `re.sub(r'<!\[CDATA\[(.*?)\]\]>', r'\1', markup)` (lines 1588, 2243):
every CDATA wrapper is replaced by its capture, scanning left to right
without rescanning replacements (this `re.sub` passes no flags, so matching
is case-sensitive).  Fuel is a structural termination measure; every step
consumes at least one input character, so input-length fuel (as supplied by
`cleanCdata`) is never exhausted. -/
def cleanCdataAux : Nat → List Char → List Char
  | 0, s => s
  | _, [] => []
  | fuel + 1, c :: rest =>
    if ("<![CDATA[".data).isPrefixOf (c :: rest) then
      match captureUntilCS ("]]>".data) ((c :: rest).drop 9) with
      | some (cap, after) => cap ++ cleanCdataAux fuel after
      | none => c :: cleanCdataAux fuel rest
    else c :: cleanCdataAux fuel rest

def cleanCdata (s : String) : String :=
  ⟨cleanCdataAux s.data.length s.data⟩

/-- The regex fallback of `extract_vast_url` (lines 1617-1631): four
patterns in order; a pattern's match is returned only when the stripped
capture is nonempty and ends in `.mp4` or contains `video`, otherwise the
loop moves to the next pattern. -/
def regexMediaFallback (markup : String) : Option String :=
  let accept : Option (List Char) → Option String := fun cap =>
    cap.bind (fun cs =>
      let media_url := pyStrip ⟨cs⟩
      if media_url ≠ "" ∧ (strEndsWith media_url ".mp4" ∨ subListAt "video".data media_url.data)
      then some media_url else none)
  accept (searchLazyCI (matchOpenAttr "<MediaFile".data "<![CDATA[".data) "]]></MediaFile>".data markup.data) <|>
  accept (searchLazyCI (matchOpenAttr "<MediaFile".data [] ) "</MediaFile>".data markup.data) <|>
  accept (searchLazyCI (matchLit "<URL><![CDATA[".data) "]]></URL>".data markup.data) <|>
  accept (searchLazyCI (matchLit "<URL>".data) "</URL>".data markup.data)

/-- Models `extract_vast_url(markup)` (line 1555), with the outgoing fetch list.
`parseXml` is the `ET.fromstring` oracle for locally supplied markup.  When
a `VASTAdTagURI` is found, the chain is processed once; a chain failure is
caught and the (entity-decoded) wrapper URI itself is returned as the
fallback value (line 1580).  Otherwise the markup is treated as a direct
VAST document; there a `ValueError` from bitrate parsing propagates out
uncaught (`Except.error`), and both an XML parse failure and an empty
candidate list fall through to the regex fallback. -/
def extract_vast_url (net : Net) (parseXml : String → Option XNode) (markup : String) :
    Except String (Option String) × List String :=
  match vastTagSearch markup with
  | some raw =>
    let vast_xml_url := html_unescape raw
    let r := processVastChain net vast_xml_url 0
    (match r.1 with
     | .ok u => (.ok (some u), r.2)
     | .error _ => (.ok (some vast_xml_url), r.2))
  | none =>
    match parseXml (cleanCdata markup) with
    | some root =>
      (match collectMediaFiles (findAll root "MediaFile") with
       | .error m => (.error m, [])
       | .ok ms =>
         match sortMediaFiles ms with
         | primary_video :: _ => (.ok (some primary_video.url), [])
         | [] => (.ok (regexMediaFallback markup), []))
    | none => (.ok (regexMediaFallback markup), [])

/-- The click-through regex fallback of `extract_vast_click_through`
(lines 1740-1750): `ClickThrough` then `ClickTracking`, CDATA form before
plain form; the raw capture is returned unstripped. -/
def clickRegexFallback (markup : String) : Option String :=
  (searchLazyCI (matchLit "<ClickThrough><![CDATA[".data) "]]></ClickThrough>".data markup.data).map (fun c => (⟨c⟩ : String)) <|>
  (searchLazyCI (matchLit "<ClickThrough>".data) "</ClickThrough>".data markup.data).map (fun c => (⟨c⟩ : String)) <|>
  (searchLazyCI (matchLit "<ClickTracking><![CDATA[".data) "]]></ClickTracking>".data markup.data).map (fun c => (⟨c⟩ : String)) <|>
  (searchLazyCI (matchLit "<ClickTracking>".data) "</ClickTracking>".data markup.data).map (fun c => (⟨c⟩ : String))

/-- Models `extract_vast_click_through(markup)` (line 1716) with the fetch list.
When a `VASTAdTagURI` is found the click chain runs once; on success its
value (possibly `None`) is returned directly, while a chain failure breaks
out and falls back to the regex scan over the original markup — as does the
absence of any `VASTAdTagURI`. -/
def extract_vast_click_through (net : Net) (markup : String) :
    Option String × List String :=
  match vastTagSearch markup with
  | some raw =>
    let vast_xml_url := html_unescape raw
    let r := clickChain net vast_xml_url 0
    (match r.1 with
     | .ok res => (res, r.2)
     | .error _ => (clickRegexFallback markup, r.2))
  | none => (clickRegexFallback markup, [])

/-- The vendor namespace of `parse_ad_response` (line 1450), in the
`{uri}name` tag spelling that ElementTree uses for qualified names. -/
def TNS : String := "\x7bhttp://www.inner-active.com/SimpleM2M/M2MResponse\x7d"

/-- Models `root.find('.//{TNS}AdWidth')` then `.get('Value')` (lines 1453-1458):
`None` when the element is missing or carries no such attribute. -/
def widthValue (root : XNode) : Option String :=
  (findE root (TNS ++ "AdWidth")).bind (fun e => attrGet e "Value")

def heightValue (root : XNode) : Option String :=
  (findE root (TNS ++ "AdHeight")).bind (fun e => attrGet e "Value")

def adTypeValue (root : XNode) : Option String :=
  (findE root (TNS ++ "AdType")).bind (fun e => attrGet e "Value")

/-- Ad element lookup (lines 1467-1469): namespaced first, then the
unqualified fallback. -/
def adElemOf (root : XNode) : Option XNode :=
  match findE root (TNS ++ "Ad") with
  | some e => some e
  | none => findE root "Ad"

/-- The CDATA-hunting loop over the Ad element's direct children
(lines 1481-1486): comments are skipped, and the first child whose text is
truthy with a truthy strip contributes its stripped text. -/
def firstChildText : List XNode → Option String
  | [] => none
  | c :: cs =>
    if c.tag = none then firstChildText cs
    else
      match c.text with
      | some t =>
        if t ≠ "" ∧ pyStrip t ≠ "" then some (pyStrip t) else firstChildText cs
      | none => firstChildText cs

/-- The extracted payload of an Ad element (lines 1477-1491): the first
qualifying child text, else the Ad element's own stripped text, else empty. -/
def cdataContent (ad_elem : XNode) : String :=
  match firstChildText ad_elem.children with
  | some c => c
  | none =>
    match ad_elem.text with
    | some t => if t = "" then "" else pyStrip t
    | none => ""

/-- Result of `parse_ad_response`: the error dict or the
`{type, creative, width, height}` dict. -/
inductive AdParse where
  | err (msg : String)
  | ok (type creative : String) (width height : Option String)

/-- Models `parse_ad_response(xml_string)` (line 1432), from the point
where `ET.fromstring` has succeeded (the string-level guards return the
`No XML content provided` / `XML parsing error` dicts before any of the
logic below runs).  Classification: `AdType.Value` of `"4"` gives
`display`, `"8"` gives `vast`, anything else — a missing element, a missing
attribute or an unknown code — falls to the explicit `display` default, in
each case with the entity-decoded payload. -/
def parse_ad_response (root : XNode) : AdParse :=
  let width := widthValue root
  let height := heightValue root
  let ad_type := adTypeValue root
  match adElemOf root with
  | none => .err "No Ad element found"
  | some ad_elem =>
    let cdata_content := cdataContent ad_elem
    if cdata_content = "" then .err "No CDATA content found"
    else if ad_type = some "4" then
      .ok "display" (decode_html_entities cdata_content) width height
    else if ad_type = some "8" then
      .ok "vast" (decode_html_entities cdata_content) width height
    else
      .ok "display" (decode_html_entities cdata_content) width height

/-- One companion descriptor as interpolated into the HTML block built by
`_extract_companion_ad_info` (lines 2259-2299): id / width / height with
their source defaults, and the optional image and click urls. -/
structure CompanionInfo where
  id : String
  width : String
  height : String
  imageUrl : Option String
  clickUrl : Option String

/-- Result dict of `_extract_companion_ad_info`; the HTML
assembly is modelled as the list of per-companion descriptors the source
interpolates into its fixed HTML template. -/
structure CompanionResult where
  found : Bool
  companions : List CompanionInfo

/-- Per-companion field extraction (lines 2260-2270): `StaticResource` /
`CompanionClickThrough` text contributes only when the element exists and
its text is truthy, in which case it is stripped. -/
def companionFields (i : Nat) (c : XNode) : CompanionInfo :=
  { id := attrD c "id" ("companion_" ++ toString i)
  , width := attrD c "width" "Unknown"
  , height := attrD c "height" "Unknown"
  , imageUrl := (findE c "StaticResource").bind (fun sr =>
      match sr.text with
      | some t => if t = "" then none else some (pyStrip t)
      | none => none)
  , clickUrl := (findE c "CompanionClickThrough").bind (fun ct =>
      match ct.text with
      | some t => if t = "" then none else some (pyStrip t)
      | none => none) }

/-- Models `_extract_companion_ad_info(markup)` (line 2236): CDATA wrappers are
removed, the result is parsed (`parseXml` oracle); a parse failure or an
empty `Companion` list yields the not-found result, else every companion is
enumerated into a descriptor. -/
def extract_companion_ad_info (parseXml : String → Option XNode) (markup : String) :
    CompanionResult :=
  match parseXml (cleanCdata markup) with
  | none => ⟨false, []⟩
  | some root =>
    let companion_ads := findAll root "Companion"
    if companion_ads.isEmpty then ⟨false, []⟩
    else ⟨true, companion_ads.enum.map (fun p => companionFields p.1 p.2)⟩

/-- A minimal wrapper VAST document whose `VASTAdTagURI` text is `next`. -/
def wrapperDoc (next : String) : XNode :=
  .mk (some "VAST") [] none [.mk (some "Ad") [] none
    [.mk (some "Wrapper") [] none [.mk (some "VASTAdTagURI") [] (some next) []]]]

/-- A network serving a pure wrapper chain of depth 6: the six URIs
`u0 … u5` each resolve to a wrapper document pointing at the next. -/
def chain6net : Net := fun u =>
  if u = "u0" then .xml (wrapperDoc "u1")
  else if u = "u1" then .xml (wrapperDoc "u2")
  else if u = "u2" then .xml (wrapperDoc "u3")
  else if u = "u3" then .xml (wrapperDoc "u4")
  else if u = "u4" then .xml (wrapperDoc "u5")
  else if u = "u5" then .xml (wrapperDoc "u6")
  else .httpFail 404

/-- A `MediaFile` element with a `type` and `bitrate` attribute and its url
as element text. -/
def mfile (url ty bitrate : String) : XNode :=
  .mk (some "MediaFile") [("type", ty), ("bitrate", bitrate)] (some url) []

/-- A minimal InLine VAST document with the given MediaFiles under its
Linear creative. -/
def inlineDoc (mfs : List XNode) : XNode :=
  .mk (some "VAST") [] none [.mk (some "Ad") [] none
    [.mk (some "InLine") [] none
      [.mk (some "Creatives") [] none
        [.mk (some "Linear") [] none [.mk (some "MediaFiles") [] none mfs]]]]]

/-- A network serving one InLine with qualifying bitrates 500 and 1200 plus
a non-qualifying webm candidate at 9000. -/
def c5net : Net := fun u =>
  if u = "w" then
    .xml (inlineDoc [mfile "low.mp4" "video/mp4" "500",
                     mfile "high.mp4" "video/mp4" "1200",
                     mfile "huge.webm" "video/webm" "9000"])
  else .httpFail 500

/-- The Linear node inside the document served by `c5net`. -/
def c5linear : XNode :=
  .mk (some "Linear") [] none [.mk (some "MediaFiles") [] none
    [mfile "low.mp4" "video/mp4" "500", mfile "high.mp4" "video/mp4" "1200",
     mfile "huge.webm" "video/webm" "9000"]]

/-- The InLine node inside the document served by `c5net`. -/
def c5inline : XNode :=
  .mk (some "InLine") [] none [.mk (some "Creatives") [] none [c5linear]]

/-- The qualifying candidates collected from `c5linear` (the webm file does
not qualify). -/
def c5files : List MediaFile :=
  [⟨"low.mp4", "video/mp4", 500⟩, ⟨"high.mp4", "video/mp4", 1200⟩]

/-- A document containing both an InLine (with a playable MediaFile) and a
Wrapper with a `VASTAdTagURI`. -/
def bothDoc : XNode :=
  .mk (some "VAST") [] none [.mk (some "Ad") [] none
    [.mk (some "InLine") [] none
      [.mk (some "Linear") [] none [mfile "in.mp4" "video/mp4" "100"]],
     .mk (some "Wrapper") [] none [.mk (some "VASTAdTagURI") [] (some "other") []]]]

/-- The InLine node of `bothDoc`. -/
def bothInline : XNode :=
  .mk (some "InLine") [] none [.mk (some "Linear") [] none [mfile "in.mp4" "video/mp4" "100"]]

/-- A network serving `bothDoc` at `b` and failing everywhere else, so a
fetch of the wrapper target would be observable. -/
def c9net : Net := fun u => if u = "b" then .xml bothDoc else .httpFail 500

/-- An envelope is well formed (in the sense of claim C2) when an Ad
element is present and yields a nonempty payload, i.e. the input reaches
the classification step. -/
def wellFormedEnvelope (root : XNode) : Prop :=
  ∃ ad_elem, adElemOf root = some ad_elem ∧ cdataContent ad_elem ≠ ""

/-- An envelope with dimensions, an optional `AdType` code, and an Ad
element whose first non-comment child carries the payload (a comment child
sits in front to exercise the comment-skipping loop). -/
def envelopeWith (code : Option String) : XNode :=
  .mk (some "Response") [] none
    ([.mk (some (TNS ++ "AdWidth")) [("Value", "300")] none [],
      .mk (some (TNS ++ "AdHeight")) [("Value", "250")] none []] ++
     (match code with
      | some c => [.mk (some (TNS ++ "AdType")) [("Value", c)] none []]
      | none => []) ++
     [.mk (some (TNS ++ "Ad")) [] none [.mk none [] (some " a comment ") [],
        .mk (some "payload") [] (some " <VAST/> ") []]])

/-- A network on which every fetch fails with HTTP 500. -/
def badnet : Net := fun _ => .httpFail 500

/-- Markup holding only a wrapper `VASTAdTagURI`. -/
def c3markup : String := "<VASTAdTagURI>http://bad.example/vast</VASTAdTagURI>"

/-- A qualifying MediaFile without a `bitrate` attribute. -/
def mfNoBitrate : XNode := .mk (some "MediaFile") [("type", "video/mp4")] (some "a.mp4") []

/-- A qualifying MediaFile with an empty `bitrate` attribute. -/
def mfEmptyBitrate : XNode :=
  .mk (some "MediaFile") [("type", "video/mp4"), ("bitrate", "")] (some "a.mp4") []

/-- A network serving an InLine whose only MediaFile declares the
unparsable bitrate `abc`. -/
def c4net : Net := fun _ => .xml (inlineDoc [mfile "a.mp4" "video/mp4" "abc"])

/-- An `ET.fromstring` oracle mapping the direct markup to the same
unparsable-bitrate InLine document. -/
def c4pf : String → Option XNode :=
  fun s => if s = "<direct/>" then some (inlineDoc [mfile "a.mp4" "video/mp4" "abc"]) else none

/-- Wrapper markup that itself carries a wrapper-level ClickThrough. -/
def c6markup : String :=
  "<VASTAdTagURI>u</VASTAdTagURI><ClickThrough>http://wrapper-click</ClickThrough>"

/-- An envelope with no Ad element under either tag spelling. -/
def noAdEnv : XNode :=
  .mk (some "Response") [] none
    [.mk (some (TNS ++ "AdType")) [("Value", "8")] none [],
     .mk (some "Other") [] (some "text") []]

/-- A companion with both a `StaticResource` and a `CompanionClickThrough`. -/
def comp1 : XNode :=
  .mk (some "Companion") [("id", "c1"), ("width", "300"), ("height", "250")] none
    [.mk (some "StaticResource") [] (some "http://img.example/a.png") [],
     .mk (some "CompanionClickThrough") [] (some "http://click.example/a") []]

/-- A companion with neither optional child. -/
def comp2 : XNode := .mk (some "Companion") [("id", "c2")] none []

/-- A VAST document with the two companions above. -/
def compDoc : XNode :=
  .mk (some "VAST") [] none [.mk (some "CompanionAds") [] none [comp1, comp2]]

/-- An `ET.fromstring` oracle serving `compDoc` for the companion markup. -/
def compPf : String → Option XNode :=
  fun s => if s = "<markup/>" then some compDoc else none

/-- Helper for C1: taking one wrapper hop under the hop guard appends the
fetched url to the log and recurses at the next url and wrapper count. -/
theorem chain_wrapper_step (net : Net) (url next : String) (wc fuel : Nat)
    (hw : wc ≤ 5) (h : net url = .xml (wrapperDoc next))
    (hne : next ≠ "") (hstrip : pyStrip next = next) :
    processVastChainAux net (fuel + 1) url wc =
      ((processVastChainAux net fuel next (wc + 1)).1,
        url :: (processVastChainAux net fuel next (wc + 1)).2) := by
  have hguard : ¬ wc > 5 := by omega
  simp [processVastChainAux, hguard, h, wrapperDoc, findE, findAll,
    XNode.descendants, descendantsList, XNode.tag, XNode.text, XNode.children,
    wrapperNextUri, hne, hstrip]

/-- Helper for C5: membership through `insertDesc`. -/
theorem mem_insertDesc (a m : MediaFile) (l : List MediaFile) :
    a ∈ insertDesc m l ↔ a = m ∨ a ∈ l := by
  induction l with
  | nil => simp [insertDesc]
  | cons x xs ih =>
    simp only [insertDesc]
    by_cases h : x.bitrate < m.bitrate
    · simp [h]
    · simp [h, ih]
      tauto

/-- Helper for C5: the head after inserting is the bitrate-larger of the
inserted element and the old head (the old head on ties). -/
theorem head_insertDesc (m : MediaFile) (l : List MediaFile) :
    (insertDesc m l).head? = some (match l.head? with
      | none => m
      | some x => if x.bitrate < m.bitrate then m else x) := by
  cases l with
  | nil => simp [insertDesc]
  | cons x xs =>
    simp only [insertDesc]
    by_cases h : x.bitrate < m.bitrate
    · simp [h]
    · simp [h]

/-- Helper for C5: folding `insertDesc` over a list keeps a head that is a
bitrate upper bound of everything inserted so far. -/
theorem foldl_insertDesc_head (l : List MediaFile) :
    ∀ (acc : List MediaFile) (m : MediaFile), acc.head? = some m →
      (∀ x ∈ acc, x.bitrate ≤ m.bitrate) →
      ∃ m2, (l.foldl (fun a x => insertDesc x a) acc).head? = some m2 ∧
        (m2 ∈ acc ∨ m2 ∈ l) ∧
        (∀ x ∈ acc, x.bitrate ≤ m2.bitrate) ∧ (∀ x ∈ l, x.bitrate ≤ m2.bitrate) := by
  induction l with
  | nil =>
    intro acc m hh hb
    exact ⟨m, hh, Or.inl (List.mem_of_mem_head? hh), hb, by simp⟩
  | cons y ys ih =>
    intro acc m hh hb
    have hstep : (insertDesc y acc).head? = some (if m.bitrate < y.bitrate then y else m) := by
      rw [head_insertDesc, hh]
    by_cases hy : m.bitrate < y.bitrate
    · rw [if_pos hy] at hstep
      obtain ⟨m2, h1, h2, h3, h4⟩ := ih (insertDesc y acc) y hstep
        (by intro x hx
            rcases (mem_insertDesc x y acc).1 hx with h | h
            · simp [h]
            · exact le_of_lt (lt_of_le_of_lt (hb x h) hy))
      refine ⟨m2, by simpa using h1, ?_, ?_, ?_⟩
      · rcases h2 with h | h
        · rcases (mem_insertDesc m2 y acc).1 h with h2 | h2
          · exact Or.inr (by simp [h2])
          · exact Or.inl h2
        · exact Or.inr (by simp [h])
      · intro x hx
        exact h3 x ((mem_insertDesc x y acc).2 (Or.inr hx))
      · intro x hx
        rcases List.mem_cons.1 hx with h | h
        · rw [h]; exact h3 y ((mem_insertDesc y y acc).2 (Or.inl rfl))
        · exact h4 x h
    · rw [if_neg hy] at hstep
      obtain ⟨m2, h1, h2, h3, h4⟩ := ih (insertDesc y acc) m hstep
        (by intro x hx
            rcases (mem_insertDesc x y acc).1 hx with h | h
            · rw [h]; omega
            · exact hb x h)
      refine ⟨m2, by simpa using h1, ?_, ?_, ?_⟩
      · rcases h2 with h | h
        · rcases (mem_insertDesc m2 y acc).1 h with h2 | h2
          · exact Or.inr (by simp [h2])
          · exact Or.inl h2
        · exact Or.inr (by simp [h])
      · intro x hx
        exact h3 x ((mem_insertDesc x y acc).2 (Or.inr hx))
      · intro x hx
        rcases List.mem_cons.1 hx with h | h
        · rw [h]; exact h3 y ((mem_insertDesc y y acc).2 (Or.inl rfl))
        · exact h4 x h

/-- Helper for C5: the head of the sorted candidate list is a member of the
input and has maximal bitrate. -/
theorem sortMediaFiles_head (ms : List MediaFile) (hne : ms ≠ []) :
    ∃ m, (sortMediaFiles ms).head? = some m ∧ m ∈ ms ∧
      ∀ x ∈ ms, x.bitrate ≤ m.bitrate := by
  cases ms with
  | nil => exact absurd rfl hne
  | cons m0 rest =>
    have h0 : (insertDesc m0 []).head? = some m0 := by simp [insertDesc]
    obtain ⟨m2, h1, h2, h3, h4⟩ := foldl_insertDesc_head rest (insertDesc m0 []) m0 h0
      (by intro x hx
          rcases (mem_insertDesc x m0 []).1 hx with h | h
          · simp [h]
          · simp at h)
    refine ⟨m2, by simpa [sortMediaFiles] using h1, ?_, ?_⟩
    · rcases h2 with h | h
      · rcases (mem_insertDesc m2 m0 []).1 h with h2 | h2
        · simp [h2]
        · simp at h2
      · exact List.mem_cons_of_mem _ h
    · intro x hx
      rcases List.mem_cons.1 hx with h | h
      · rw [h]; exact h3 m0 ((mem_insertDesc m0 m0 []).2 (Or.inl rfl))
      · exact h4 x h

/-- Helper for C6: whenever the click chain walk returns a non-error value,
that value is the click extraction of an InLine element of some fetched
document — wrapper nodes never contribute a click-through. -/
theorem clickChainAux_ok_from_inline (net : Net) :
    ∀ (fuel : Nat) (url : String) (wc : Nat) (u : Option String),
      (clickChainAux net fuel url wc).1 = .ok u →
      ∃ turl root inl, net turl = .xml root ∧ findE root "InLine" = some inl ∧
        inlineClick inl = .ok u := by
  intro fuel
  induction fuel with
  | zero => intro url wc u h; simp [clickChainAux] at h
  | succ k ih =>
    intro url wc u h
    by_cases hg : wc > 5
    · simp [clickChainAux, hg] at h
    · rw [clickChainAux] at h
      rw [if_neg hg] at h
      cases hnet : net url with
      | httpFail s => simp only [hnet] at h; simp at h
      | exn m => simp only [hnet] at h; simp at h
      | badXml m => simp only [hnet] at h; simp at h
      | xml root =>
        simp only [hnet] at h
        cases hinl : findE root "InLine" with
        | some inl =>
          simp only [hinl] at h
          exact ⟨url, root, inl, hnet, hinl, h⟩
        | none =>
          simp only [hinl] at h
          cases hw : findE root "Wrapper" with
          | some w =>
            simp only [hw] at h
            cases hnext : wrapperNextUri w with
            | error m => simp only [hnext] at h; simp at h
            | ok nxt =>
              simp only [hnext] at h
              exact ih nxt (wc + 1) u h
          | none => simp only [hw] at h; simp at h

/-- C1 (counterexample): on a pure wrapper chain of depth 6 the walk does
fail with the hop-limit error, but it performs 6 network fetches, fetching
the 6th URI `u5` — refuting the claim's bound of at most 5 fetches with the
6th URI never fetched. -/
theorem C1_counterexample :
    processVastChain chain6net "u0" 0 =
      (.error "Exceeded maximum VAST wrapper redirects", ["u0", "u1", "u2", "u3", "u4", "u5"]) ∧
    (processVastChain chain6net "u0" 0).2.length = 6 ∧
    "u5" ∈ (processVastChain chain6net "u0" 0).2 ∧
    ¬ (processVastChain chain6net "u0" 0).2.length ≤ 5 :=
  ⟨rfl, by decide, by decide, by decide⟩

/-- C1 (amended): for every wrapper chain of depth 6, the media chain walk
starting at depth 0 fails with the hop-limit error after fetching exactly
the six wrapper URIs, in order — so six fetches, including the 6th URI, and
never a 7th. -/
theorem C1_amended (net : Net) (u0 u1 u2 u3 u4 u5 u6 : String)
    (h0 : net u0 = .xml (wrapperDoc u1)) (h1 : net u1 = .xml (wrapperDoc u2))
    (h2 : net u2 = .xml (wrapperDoc u3)) (h3 : net u3 = .xml (wrapperDoc u4))
    (h4 : net u4 = .xml (wrapperDoc u5)) (h5 : net u5 = .xml (wrapperDoc u6))
    (hn1 : u1 ≠ "") (hs1 : pyStrip u1 = u1) (hn2 : u2 ≠ "") (hs2 : pyStrip u2 = u2)
    (hn3 : u3 ≠ "") (hs3 : pyStrip u3 = u3) (hn4 : u4 ≠ "") (hs4 : pyStrip u4 = u4)
    (hn5 : u5 ≠ "") (hs5 : pyStrip u5 = u5) (hn6 : u6 ≠ "") (hs6 : pyStrip u6 = u6) :
    processVastChain net u0 0 =
      (.error "Exceeded maximum VAST wrapper redirects", [u0, u1, u2, u3, u4, u5]) := by
  show processVastChainAux net 7 u0 0 = _
  rw [show (7 : Nat) = 6 + 1 from rfl,
      chain_wrapper_step net u0 u1 0 6 (by omega) h0 hn1 hs1,
      show (6 : Nat) = 5 + 1 from rfl,
      chain_wrapper_step net u1 u2 1 5 (by omega) h1 hn2 hs2,
      show (5 : Nat) = 4 + 1 from rfl,
      chain_wrapper_step net u2 u3 2 4 (by omega) h2 hn3 hs3,
      show (4 : Nat) = 3 + 1 from rfl,
      chain_wrapper_step net u3 u4 3 3 (by omega) h3 hn4 hs4,
      show (3 : Nat) = 2 + 1 from rfl,
      chain_wrapper_step net u4 u5 4 2 (by omega) h4 hn5 hs5,
      show (2 : Nat) = 1 + 1 from rfl,
      chain_wrapper_step net u5 u6 5 1 (by omega) h5 hn6 hs6]
  simp [processVastChainAux]

/-- C1 (witness): the amended theorem instantiated on the concrete depth-6
chain network. -/
theorem C1_witness :
    processVastChain chain6net "u0" 0 =
      (.error "Exceeded maximum VAST wrapper redirects", ["u0", "u1", "u2", "u3", "u4", "u5"]) :=
  C1_amended chain6net "u0" "u1" "u2" "u3" "u4" "u5" "u6" rfl rfl rfl rfl rfl rfl
    (by decide) rfl (by decide) rfl (by decide) rfl (by decide) rfl (by decide) rfl (by decide) rfl

/-- C2: for every well-formed envelope (an Ad element with a nonempty
payload), `parse_ad_response` succeeds — never an error — and classifies the
type solely by the `AdType` `Value` code: `8` gives `vast`, everything else
(including `4`, unknown codes and a missing element or attribute) gives
`display`. -/
theorem C2_classification (root : XNode) (h : wellFormedEnvelope root) :
    ∃ creative, parse_ad_response root =
      .ok (if adTypeValue root = some "8" then "vast" else "display")
        creative (widthValue root) (heightValue root) := by
  obtain ⟨ad, had, hc⟩ := h
  by_cases h8 : adTypeValue root = some "8"
  · have h4 : ¬ adTypeValue root = some "4" := by simp [h8]
    exact ⟨decode_html_entities (cdataContent ad),
      by simp [parse_ad_response, had, hc, h8, h4]⟩
  · by_cases h4 : adTypeValue root = some "4"
    · exact ⟨decode_html_entities (cdataContent ad),
        by simp [parse_ad_response, had, hc, h8, h4]⟩
    · exact ⟨decode_html_entities (cdataContent ad),
        by simp [parse_ad_response, had, hc, h8, h4]⟩

/-- C2 (witness): the classification theorem instantiated on envelopes with
code 8 (vast), code 4 (display) and no `AdType` element at all (display). -/
theorem C2_witness :
    (∃ creative, parse_ad_response (envelopeWith (some "8")) =
      .ok (if adTypeValue (envelopeWith (some "8")) = some "8" then "vast" else "display")
        creative (widthValue (envelopeWith (some "8"))) (heightValue (envelopeWith (some "8")))) ∧
    (∃ creative, parse_ad_response (envelopeWith (some "4")) =
      .ok (if adTypeValue (envelopeWith (some "4")) = some "8" then "vast" else "display")
        creative (widthValue (envelopeWith (some "4"))) (heightValue (envelopeWith (some "4")))) ∧
    (∃ creative, parse_ad_response (envelopeWith none) =
      .ok (if adTypeValue (envelopeWith none) = some "8" then "vast" else "display")
        creative (widthValue (envelopeWith none)) (heightValue (envelopeWith none))) ∧
    adTypeValue (envelopeWith (some "8")) = some "8" ∧
    adTypeValue (envelopeWith (some "4")) = some "4" ∧
    adTypeValue (envelopeWith none) = none :=
  ⟨C2_classification _ ⟨_, rfl, by decide⟩,
   C2_classification _ ⟨_, rfl, by decide⟩,
   C2_classification _ ⟨_, rfl, by decide⟩,
   rfl, rfl, rfl⟩

/-- C3 (counterexample): the chain walk for the wrapper URI fails with the
fetch error, yet `extract_vast_url` returns the wrapper URI itself as a
success value rather than surfacing the failure — refuting the claim that
no substitute success value is returned in place of the error. -/
theorem C3_counterexample :
    (processVastChain badnet "http://bad.example/vast" 0).1 =
      .error "Failed to fetch VAST XML: 500" ∧
    extract_vast_url badnet (fun _ => none) c3markup =
      (.ok (some "http://bad.example/vast"), ["http://bad.example/vast"]) :=
  ⟨rfl, rfl⟩

/-- C3 (amended): for every markup containing a `VASTAdTagURI` whose chain
walk fails, the walk is attempted exactly once — the fetch log of
`extract_vast_url` is precisely the single walk's log, so there is no
retry — but the failure is not surfaced: the exception is caught and the
entity-decoded wrapper URI itself is returned as a fallback success
value. -/
theorem C3_amended (net : Net) (pf : String → Option XNode) (markup raw e : String)
    (hsearch : vastTagSearch markup = some raw)
    (herr : (processVastChain net (html_unescape raw) 0).1 = .error e) :
    extract_vast_url net pf markup =
      (.ok (some (html_unescape raw)), (processVastChain net (html_unescape raw) 0).2) := by
  simp [extract_vast_url, hsearch, herr]

/-- C3 (witness): the amended theorem instantiated on the failing concrete
markup and network. -/
theorem C3_witness :
    extract_vast_url badnet (fun _ => none) c3markup =
      (.ok (some (html_unescape "http://bad.example/vast")),
        (processVastChain badnet (html_unescape "http://bad.example/vast") 0).2) :=
  C3_amended badnet (fun _ => none) c3markup "http://bad.example/vast"
    "Failed to fetch VAST XML: 500" rfl rfl

/-- C4 (counterexample): a qualifying MediaFile whose bitrate attribute is
`abc` does not get bitrate 0 — the parse raises (ValueError), aborting the
chain walk and the direct extraction — refuting the claim that unparsable
bitrates default to 0 and never abort resolution. -/
theorem C4_counterexample :
    parseBitrate (mfile "a.mp4" "video/mp4" "abc") =
      .error "invalid literal for int() with base 10: abc" ∧
    (processVastChain c4net "x" 0).1 = .error "invalid literal for int() with base 10: abc" ∧
    (extract_vast_url badnet c4pf "<direct/>").1 =
      .error "invalid literal for int() with base 10: abc" :=
  ⟨rfl, rfl, rfl⟩

/-- C4 (amended): the bitrate attribute defaults to 0 when it is missing or
empty; but a non-empty attribute that does not parse as a decimal integer
raises a ValueError, which aborts that resolution attempt. -/
theorem C4_bitrate_default :
    (∀ e : XNode, attrGet e "bitrate" = none → parseBitrate e = .ok 0) ∧
    (∀ e : XNode, attrGet e "bitrate" = some "" → parseBitrate e = .ok 0) ∧
    (∀ (e : XNode) (b : String), attrGet e "bitrate" = some b → b ≠ "" → pyInt b = none →
      parseBitrate e = .error ("invalid literal for int() with base 10: " ++ b)) := by
  refine ⟨?_, ?_, ?_⟩
  · intro e h
    simp [parseBitrate, attrD, h]
    rfl
  · intro e h
    simp [parseBitrate, attrD, h]
    rfl
  · intro e b hb hbne hpi
    simp [parseBitrate, attrD, hb, hbne, hpi]

/-- C4 (witness): the amended theorem instantiated on a MediaFile without a
bitrate, one with an empty bitrate, and one with the unparsable `abc`. -/
theorem C4_witness :
    parseBitrate mfNoBitrate = .ok 0 ∧ parseBitrate mfEmptyBitrate = .ok 0 ∧
    parseBitrate (mfile "a.mp4" "video/mp4" "abc") =
      .error ("invalid literal for int() with base 10: " ++ "abc") :=
  ⟨C4_bitrate_default.1 mfNoBitrate rfl,
   C4_bitrate_default.2.1 mfEmptyBitrate rfl,
   C4_bitrate_default.2.2 (mfile "a.mp4" "video/mp4" "abc") "abc" rfl (by decide) rfl⟩

/-- C5: for every InLine VAST whose Linear creative yields a nonempty list
of qualifying MediaFile candidates, the walk returns the url of a
qualifying candidate of maximal declared bitrate (non-qualifying files are
never in the candidate list), fetching only that one document. -/
theorem C5_highest (net : Net) (url : String) (wc : Nat) (root inl lin : XNode)
    (ms : List MediaFile) (hw : wc ≤ 5) (hnet : net url = .xml root)
    (hinl : findE root "InLine" = some inl) (hlin : findE inl "Linear" = some lin)
    (hcol : collectMediaFiles (findAll lin "MediaFile") = .ok ms) (hne : ms ≠ []) :
    ∃ m, m ∈ ms ∧ processVastChain net url wc = (.ok m.url, [url]) ∧
      ∀ x ∈ ms, x.bitrate ≤ m.bitrate := by
  obtain ⟨m, hhead, hmem, hmax⟩ := sortMediaFiles_head ms hne
  obtain ⟨tl, hsort⟩ : ∃ tl, sortMediaFiles ms = m :: tl := by
    cases hs : sortMediaFiles ms with
    | nil => rw [hs] at hhead; simp at hhead
    | cons a tl =>
      rw [hs] at hhead
      simp at hhead
      exact ⟨tl, by rw [hhead]⟩
  refine ⟨m, hmem, ?_, hmax⟩
  obtain ⟨k, hk⟩ : ∃ k, 7 - wc = k + 1 := ⟨6 - wc, by omega⟩
  have hguard : ¬ wc > 5 := by omega
  rw [processVastChain, hk]
  simp [processVastChainAux, hguard, hnet, hinl, inlineMedia, hlin, hcol, hsort]

/-- C5 (witness): on candidates with bitrates 500 and 1200 (and a
non-qualifying 9000-bitrate webm file), the 1200-bitrate url `high.mp4` is
selected. -/
theorem C5_witness :
    (∃ m, m ∈ c5files ∧ processVastChain c5net "w" 0 = (.ok m.url, ["w"]) ∧
      ∀ x ∈ c5files, x.bitrate ≤ m.bitrate) ∧
    processVastChain c5net "w" 0 = (.ok "high.mp4", ["w"]) :=
  ⟨C5_highest c5net "w" 0
      (inlineDoc [mfile "low.mp4" "video/mp4" "500", mfile "high.mp4" "video/mp4" "1200",
        mfile "huge.webm" "video/webm" "9000"])
      c5inline c5linear c5files (by omega) rfl rfl rfl rfl (by decide),
   rfl⟩

/-- C6 (counterexample): when the click chain walk fails, the wrapper-level
`ClickThrough` of the initially supplied markup is returned as the result —
refuting the claim that such urls are never used. -/
theorem C6_counterexample :
    (clickChain badnet "u" 0).1 = .error "Failed to fetch VAST XML: 500" ∧
    (extract_vast_click_through badnet c6markup).1 = some "http://wrapper-click" :=
  ⟨rfl, rfl⟩

/-- C6 (amended): a non-error click chain result always comes from the
click structure of an InLine element of some fetched document (wrapper
nodes along the chain never contribute), and a successful chain value is
returned as is; but when the chain walk fails, `extract_vast_click_through`
falls back to a regex scan of the original markup and may return a
`ClickThrough`/`ClickTracking` url found there. -/
theorem C6_amended :
    (∀ (net : Net) (fuel : Nat) (url : String) (wc : Nat) (u : Option String),
      (clickChainAux net fuel url wc).1 = .ok u →
      ∃ turl root inl, net turl = .xml root ∧ findE root "InLine" = some inl ∧
        inlineClick inl = .ok u) ∧
    (∀ (net : Net) (markup raw : String) (v : Option String),
      vastTagSearch markup = some raw → (clickChain net (html_unescape raw) 0).1 = .ok v →
      (extract_vast_click_through net markup).1 = v) ∧
    (∀ (net : Net) (markup raw e : String),
      vastTagSearch markup = some raw → (clickChain net (html_unescape raw) 0).1 = .error e →
      (extract_vast_click_through net markup).1 = clickRegexFallback markup) := by
  refine ⟨clickChainAux_ok_from_inline, ?_, ?_⟩
  · intro net markup raw v hsearch hok
    simp [extract_vast_click_through, hsearch, hok]
  · intro net markup raw e hsearch herr
    simp [extract_vast_click_through, hsearch, herr]

/-- C6 (witness): the amended theorem instantiated on a successful walk
(the InLine of `bothDoc`, yielding no click-through) and on the failing
walk over `c6markup`, where the regex fallback is taken. -/
theorem C6_witness :
    (∃ turl root inl, c9net turl = .xml root ∧ findE root "InLine" = some inl ∧
      inlineClick inl = .ok none) ∧
    (extract_vast_click_through badnet c6markup).1 = clickRegexFallback c6markup :=
  ⟨C6_amended.1 c9net 7 "b" 0 none rfl,
   C6_amended.2.2 badnet c6markup "u" "Failed to fetch VAST XML: 500" rfl rfl⟩

/-- C7: for every envelope in which no Ad element can be located — neither
under the vendor namespace nor as an unqualified `Ad` — `parse_ad_response`
returns the `No Ad element found` error value (and, being a total
function, never raises). -/
theorem C7_no_ad (root : XNode)
    (h1 : findE root (TNS ++ "Ad") = none) (h2 : findE root "Ad" = none) :
    parse_ad_response root = .err "No Ad element found" := by
  simp [parse_ad_response, adElemOf, h1, h2]

/-- C7 (witness): the theorem instantiated on a concrete Ad-less envelope. -/
theorem C7_witness : parse_ad_response noAdEnv = .err "No Ad element found" :=
  C7_no_ad noAdEnv rfl rfl

/-- C8: companion extraction is total and best-effort — an XML parse
failure yields the not-found result instead of an error, and a VAST with
two Companion elements, one carrying `StaticResource` and
`CompanionClickThrough` and one carrying neither, yields exactly two
descriptors, the first with image and click urls populated and the second
with both fields null. -/
theorem C8_companions :
    (∀ (pf : String → Option XNode) (markup : String),
      pf (cleanCdata markup) = none → extract_companion_ad_info pf markup = ⟨false, []⟩) ∧
    (∀ (pf : String → Option XNode) (markup : String) (root c1 c2 sr ct : XNode) (s t : String),
      pf (cleanCdata markup) = some root → findAll root "Companion" = [c1, c2] →
      findE c1 "StaticResource" = some sr → sr.text = some s → s ≠ "" →
      findE c1 "CompanionClickThrough" = some ct → ct.text = some t → t ≠ "" →
      findE c2 "StaticResource" = none → findE c2 "CompanionClickThrough" = none →
      extract_companion_ad_info pf markup =
        ⟨true, [companionFields 0 c1, companionFields 1 c2]⟩ ∧
      (companionFields 0 c1).imageUrl = some (pyStrip s) ∧
      (companionFields 0 c1).clickUrl = some (pyStrip t) ∧
      (companionFields 1 c2).imageUrl = none ∧
      (companionFields 1 c2).clickUrl = none) := by
  refine ⟨?_, ?_⟩
  · intro pf markup hpf
    simp [extract_companion_ad_info, hpf]
  · intro pf markup root c1 c2 sr ct s t hpf hca h1s hsrt hs h1c hctt ht h2s h2c
    refine ⟨?_, ?_, ?_, ?_, ?_⟩
    · simp [extract_companion_ad_info, hpf, hca, List.enum, List.enumFrom]
    · simp [companionFields, h1s, hsrt, hs]
    · simp [companionFields, h1c, hctt, ht]
    · simp [companionFields, h2s]
    · simp [companionFields, h2c]

/-- C8 (witness): the theorem instantiated on a failing parse oracle and on
the concrete two-companion document. -/
theorem C8_witness :
    extract_companion_ad_info (fun _ => none) "<x" = ⟨false, []⟩ ∧
    (extract_companion_ad_info compPf "<markup/>" =
      ⟨true, [companionFields 0 comp1, companionFields 1 comp2]⟩ ∧
     (companionFields 0 comp1).imageUrl = some (pyStrip "http://img.example/a.png") ∧
     (companionFields 0 comp1).clickUrl = some (pyStrip "http://click.example/a") ∧
     (companionFields 1 comp2).imageUrl = none ∧
     (companionFields 1 comp2).clickUrl = none) :=
  ⟨C8_companions.1 (fun _ => none) "<x" rfl,
   C8_companions.2 compPf "<markup/>" compDoc comp1 comp2
     (.mk (some "StaticResource") [] (some "http://img.example/a.png") [])
     (.mk (some "CompanionClickThrough") [] (some "http://click.example/a") [])
     "http://img.example/a.png" "http://click.example/a"
     rfl rfl rfl rfl (by decide) rfl rfl (by decide) rfl rfl⟩

/-- C9: when a fetched document contains an InLine element, both chain
walkers treat it as terminal — the result is the InLine extraction and the
fetch log is exactly the one url, so a Wrapper in the same document is
never read or followed — because the InLine check precedes the Wrapper
check. -/
theorem C9_inline_precedence (net : Net) (url : String) (wc : Nat) (root inl : XNode)
    (hw : wc ≤ 5) (hnet : net url = .xml root) (hinl : findE root "InLine" = some inl) :
    processVastChain net url wc = (inlineMedia inl, [url]) ∧
    clickChain net url wc = (inlineClick inl, [url]) := by
  obtain ⟨k, hk⟩ : ∃ k, 7 - wc = k + 1 := ⟨6 - wc, by omega⟩
  have hguard : ¬ wc > 5 := by omega
  constructor
  · rw [processVastChain, hk]
    simp [processVastChainAux, hguard, hnet, hinl]
  · rw [clickChain, hk]
    simp [clickChainAux, hguard, hnet, hinl]

/-- C9 (witness): on a document carrying both an InLine and a Wrapper, the
media walk returns the InLine's MediaFile and the click walk its (absent)
click-through, each after a single fetch. -/
theorem C9_witness :
    (processVastChain c9net "b" 0 = (inlineMedia bothInline, ["b"]) ∧
     clickChain c9net "b" 0 = (inlineClick bothInline, ["b"])) ∧
    (findE bothDoc "Wrapper").isSome = true ∧
    processVastChain c9net "b" 0 = (.ok "in.mp4", ["b"]) ∧
    clickChain c9net "b" 0 = (.ok none, ["b"]) :=
  ⟨C9_inline_precedence c9net "b" 0 bothDoc bothInline (by omega) rfl rfl, rfl, rfl, rfl⟩

/-- C10: the fixed replacement table is applied after the generic unescape
pass, so a doubly-escaped entity is fully decoded in one call: the generic
pass alone turns the input into the literal text of the once-decoded
entity, and the full decoder maps it to a space, not to that literal. -/
theorem C10_decode_after_unescape :
    html_unescape "&amp;nbsp;" = "&nbsp;" ∧
    decode_html_entities "&amp;nbsp;" = " " ∧
    decode_html_entities "&amp;nbsp;" ≠ "&nbsp;" :=
  ⟨by decide, by decide, by decide⟩
